import Mathlib

/-!
Shallow embedding of `src/main.py` of the video-transcript-generator repository.

Modelling conventions:
* All times are kept in integer milliseconds (`Nat`).  The Python source keeps the
  chunk boundaries as the millisecond integers `i` and `i + chunk_length_ms` and
  stores the derived seconds `i / 1000.0` and `(i + chunk_length_ms) / 1000.0` in the
  segment tuples; storing the milliseconds loses no information, and the division by
  1000 reappears inside the formatting function `fmt2` below.
* `pydub`'s `AudioSegment` slicing `audio[i:i + L]` clips to the end of the buffer;
  the slice is modelled by its clipped millisecond interval.
* The remote recognizer, and any unexpected fault raised inside a worker, are
  modelled by a `WorkerEvent` chosen per chunk index (the per-segment stub of the
  spec's test scenarios); exceptions are modelled with `Except`.
* Thread-pool completion order is modelled by an explicit list `completed` of
  enumerated segments, hypothesised to be a permutation of `chunks.enum` (the
  `futures` dictionary built by `audio_chunks_to_text`); `as_completed` yields every
  submitted future exactly once, in arbitrary order.
-/

/-- Python `range(start, stop, step)` for a positive step, written with an explicit
fuel argument to make the recursion structural; `fuel = stop` always suffices
because each iteration advances `start` by at least one.  This models the loop
header `for i in range(0, len(audio), chunk_length_ms)` of `split_audio`. -/
def rangeFrom (start stop step : Nat) : Nat → List Nat
  | 0 => []
  | fuel + 1 =>
    if start < stop then start :: rangeFrom (start + step) stop step fuel else []

/-- Python `range(0, stop, step)`. -/
def rangeStep (stop step : Nat) : List Nat :=
  rangeFrom 0 stop step stop

/-- One element of the list returned by `split_audio` in `src/main.py` (lines 31-36):
the tuple `(chunk, start, end)` where `chunk = audio[i:i + chunk_length_ms]` (a slice
clipped to the buffer, modelled by its millisecond interval) and the recorded times
are `i / 1000.0` and `(i + chunk_length_ms) / 1000.0` seconds (kept here in ms). -/
structure Segment where
  sliceStartMs : Nat
  sliceEndMs : Nat
  startMs : Nat
  endMs : Nat
  deriving DecidableEq

/-- Embedding of `split_audio` (src/main.py lines 20-36): iterate
`i in range(0, durationMs, chunkLengthMs)`, slice `audio[i:i+L]` (clipped to the
buffer end by pydub slicing) and record the times `i` and `i + L` (unclipped). -/
def split_audio (durationMs chunkLengthMs : Nat) : List Segment :=
  (rangeStep durationMs chunkLengthMs).map fun i =>
    { sliceStartMs := i
      sliceEndMs := min (i + chunkLengthMs) durationMs
      startMs := i
      endMs := i + chunkLengthMs }

/-- Centiseconds of a millisecond value, rounded half-to-even: the exact-decimal
reading of Python's `round`-to-2-places step inside `f"{ms/1000.0:.2f}"`.  It agrees
with the source wherever `ms / 1000.0` is exactly representable — in particular on
every multiple of 1000 ms, which covers all values exercised by the spec. -/
def centisOfMs (ms : Nat) : Nat :=
  let q := ms / 10
  if ms % 10 > 5 then q + 1
  else if ms % 10 < 5 then q
  else if q % 2 = 0 then q else q + 1

/-- Embedding of the Python format specifier `.2f` applied to `ms / 1000.0`
(exact-decimal reading, see `centisOfMs`): integer part, a dot, two fraction
digits. -/
def fmt2 (ms : Nat) : String :=
  let c := centisOfMs ms
  toString (c / 100) ++ "." ++ (if c % 100 < 10 then "0" else "") ++ toString (c % 100)

/-- The f-string shared by the three return statements of `transcribe_chunk`:
`f"{start_time:.2f}s - {end_time:.2f}s: {payload}"`. -/
def lineFmt (startMs endMs : Nat) (payload : String) : String :=
  fmt2 startMs ++ "s - " ++ fmt2 endMs ++ "s: " ++ payload

/-- The events that can drive one invocation of `transcribe_chunk`
(src/main.py lines 38-71), in source order:
* `exportFault`: an exception raised by `chunk.export(chunk_path, ...)` (line 55)
  after the OS file has been created (e.g. a failure mid-write);
* `recordFault`: an exception raised inside `with sr.AudioFile(...)`/`record`
  (lines 57-58), where the exported file exists;
* `recognized`/`unknownValue`/`requestError`: `recognizer.recognize_google`
  returns text, raises `sr.UnknownValueError`, or raises `sr.RequestError`
  (lines 62-69);
* `recognizeFault`: any other exception raised by the recognition call inside the
  `try` block. -/
inductive WorkerEvent where
  | exportFault (msg : String)
  | recordFault (msg : String)
  | recognized (text : String)
  | unknownValue
  | requestError
  | recognizeFault (msg : String)
  deriving DecidableEq

/-- Embedding of `transcribe_chunk` (src/main.py lines 38-71).  The first component
is the function's outcome (`Except.error` = an exception escaping the call); the
second component records whether the temporary file `chunk_{i}.wav` is still on
disk after the invocation.  The `try/except/except/finally` block starts only at
line 60: `chunk.export` (line 55) and the `with sr.AudioFile` read (lines 57-58)
run before it, so an exception there skips the `os.remove` in the `finally`; for
every path that reaches the `try`, the `finally` removes the file. -/
def transcribe_chunk (startMs endMs : Nat) (ev : WorkerEvent) : Except String String × Bool :=
  match ev with
  | .exportFault msg => (.error msg, true)
  | .recordFault msg => (.error msg, true)
  | .recognized t => (.ok (lineFmt startMs endMs t), false)
  | .unknownValue => (.ok (lineFmt startMs endMs ("[unintelligible]")), false)
  | .requestError => (.ok (lineFmt startMs endMs ("[error]")), false)
  | .recognizeFault msg => (.error msg, false)

/-- The body of the `for future in as_completed(futures)` loop of
`audio_chunks_to_text` (src/main.py lines 90-96) applied to one completed future,
identified by its enumerated pair `(chunk_index, segment)`: `future.result()`
either returns the worker's line or re-raises the worker's exception, which the
`except` clause turns into `f"Chunk {chunk_index} generated an exception: {exc}"`. -/
def processCompleted (behav : Nat → WorkerEvent) (p : Nat × Segment) : String :=
  match (transcribe_chunk p.2.startMs p.2.endMs (behav p.1)).1 with
  | .ok line => line
  | .error msg => "Chunk " ++ toString p.1 ++ " generated an exception: " ++ msg

/-- Embedding of `audio_chunks_to_text` (src/main.py lines 73-98): the transcript
list is built by appending one entry per future in completion order.  `completed`
is the completion order: a permutation of `chunks.enum` (one future per enumerated
chunk), supplied as an explicit parameter since the thread pool makes it arbitrary. -/
def audio_chunks_to_text (behav : Nat → WorkerEvent) (completed : List (Nat × Segment)) : List String :=
  completed.map (processCompleted behav)

/-- Embedding of `save_transcript_with_timestamps` (src/main.py lines 100-110):
the resulting file content — each transcript entry followed by a newline, in list
order, with no sorting. -/
def save_transcript_with_timestamps (transcript : List String) : String :=
  String.join (transcript.map (fun line => line ++ "\n"))

/-- Stub recognizer of the spec's end-to-end scenario: segment 0 transcribes to
"hello", segment 1 hits a connectivity error, segment 2 has no recognizable
speech. -/
def stubRecognizer75 : Nat → WorkerEvent :=
  fun i => if i = 0 then .recognized ("hello") else if i = 1 then .requestError else .unknownValue

/-- Stub recognizer with two distinct successful transcriptions, used to observe
the order of the written lines. -/
def abBehav : Nat → WorkerEvent :=
  fun i => if i = 0 then .recognized ("a") else .recognized ("b")

/-- Behaviour in which exactly one segment (index `j`) fails with `bad` and every
other segment transcribes successfully to `t i`. -/
def oneFaultBehav (t : Nat → String) (j : Nat) (bad : WorkerEvent) : Nat → WorkerEvent :=
  fun i => if i = j then bad else .recognized (t i)

/-- Arithmetic step for the ceiling division recurrence: removing one full stride
from a positive remainder removes exactly one from the number of strides. -/
theorem ceil_step (step m : Nat) (hs : 0 < step) (hm : 0 < m) :
    (m + step - 1) / step = (m - step + step - 1) / step + 1 := by
  by_cases h : m ≤ step
  · have h1 : m - step = 0 := by omega
    have h2 : m + step - 1 = (m - 1) + step := by omega
    rw [h1, h2, Nat.add_div_right _ hs]
    have h3 : (m - 1) / step = 0 := Nat.div_eq_of_lt (by omega)
    have h4 : (0 + step - 1) / step = 0 := Nat.div_eq_of_lt (by omega)
    omega
  · have h2 : m + step - 1 = ((m - step) + step - 1) + step := by omega
    rw [h2, Nat.add_div_right _ hs]

/-- Closed form of `rangeFrom`: with enough fuel it yields the arithmetic
progression `i, i + step, ...` with `ceil((stop - i) / step)` terms. -/
theorem rangeFrom_eq (step : Nat) (hs : 0 < step) :
    ∀ fuel i stop : Nat, stop - i ≤ fuel →
      rangeFrom i stop step fuel =
        (List.range ((stop - i + step - 1) / step)).map (fun k => i + k * step) := by
  intro fuel
  induction fuel with
  | zero =>
    intro i stop h
    have h0 : stop - i = 0 := by omega
    have h1 : (stop - i + step - 1) / step = 0 := by
      rw [h0]; exact Nat.div_eq_of_lt (by omega)
    simp [rangeFrom, h1]
  | succ fuel ih =>
    intro i stop h
    rw [rangeFrom]
    by_cases hlt : i < stop
    · rw [if_pos hlt, ih (i + step) stop (by omega)]
      have hstep : stop - (i + step) = stop - i - step := by omega
      rw [hstep, ceil_step step (stop - i) hs (by omega)]
      rw [List.range_succ_eq_map, List.map_cons, List.map_map]
      have hf : ((fun k => i + k * step) ∘ Nat.succ) = (fun k => i + step + k * step) := by
        funext k
        simp only [Function.comp_apply, Nat.succ_mul, Nat.succ_eq_add_one]
        ring
      rw [hf]
      simp
    · rw [if_neg hlt]
      have h0 : stop - i = 0 := by omega
      have h1 : (stop - i + step - 1) / step = 0 := by
        rw [h0]; exact Nat.div_eq_of_lt (by omega)
      simp [h1]

/-- Closed form of Python's `range(0, stop, step)` for positive `step`:
`ceil(stop / step)` multiples of `step`. -/
theorem rangeStep_eq (stop step : Nat) (hs : 0 < step) :
    rangeStep stop step = (List.range ((stop + step - 1) / step)).map (· * step) := by
  have h := rangeFrom_eq step hs stop 0 stop (by omega)
  simpa [rangeStep] using h

/-- The number of chunks produced by `split_audio` is `ceil(duration / L)`. -/
theorem split_audio_length (D L : Nat) (hL : 0 < L) :
    (split_audio D L).length = (D + L - 1) / L := by
  simp [split_audio, rangeStep_eq D L hL]

/-- Closed form of the `i`-th chunk of `split_audio`: slice clipped to the buffer,
recorded times unclipped. -/
theorem split_audio_get (D L : Nat) (hL : 0 < L) (i : Nat)
    (h : i < (split_audio D L).length) :
    (split_audio D L).get ⟨i, h⟩ =
      { sliceStartMs := i * L
        sliceEndMs := min (i * L + L) D
        startMs := i * L
        endMs := i * L + L } := by
  have hrep : split_audio D L =
      (List.range ((D + L - 1) / L)).map fun k =>
        ({ sliceStartMs := k * L
           sliceEndMs := min (k * L + L) D
           startMs := k * L
           endMs := k * L + L } : Segment) := by
    rw [split_audio, rangeStep_eq D L hL, List.map_map]
    rfl
  have hlen : i < ((D + L - 1) / L) := by
    have := split_audio_length D L hL
    omega
  have := List.get_of_eq hrep ⟨i, h⟩
  rw [this]
  simp

/-- C2 counterexample: for the 75-second buffer with 30-second chunks, the claim
that every recorded end time equals `min((i+1) * L, D)` fails — the trailing
chunk's recorded end time is 90000 ms, not `min(90000, 75000) = 75000` ms. -/
theorem C2_counterexample :
    ¬ (∀ i, (h : i < (split_audio 75000 30000).length) →
        ((split_audio 75000 30000).get ⟨i, h⟩).endMs = min ((i + 1) * 30000) 75000) := by
  decide

/-- C2 amended: for every duration `D` and chunk length `L > 0`, `split_audio`
produces exactly `ceil(D / L)` segments; segment `i`'s recorded interval equals
`[i * L, (i+1) * L)` — the end is not clipped to `D` — while the audio slice
covers `[i * L, min((i+1) * L, D))`; the recorded intervals are contiguous and
non-overlapping in increasing index order. -/
theorem claim_C2_amended (D L : Nat) (hL : 0 < L) :
    (split_audio D L).length = (D + L - 1) / L ∧
    (∀ i, (h : i < (split_audio D L).length) →
      ((split_audio D L).get ⟨i, h⟩).startMs = i * L ∧
      ((split_audio D L).get ⟨i, h⟩).endMs = i * L + L ∧
      ((split_audio D L).get ⟨i, h⟩).sliceStartMs = i * L ∧
      ((split_audio D L).get ⟨i, h⟩).sliceEndMs = min (i * L + L) D) ∧
    (∀ i, (h1 : i < (split_audio D L).length) → (h2 : i + 1 < (split_audio D L).length) →
      ((split_audio D L).get ⟨i + 1, h2⟩).startMs = ((split_audio D L).get ⟨i, h1⟩).endMs) := by
  refine ⟨split_audio_length D L hL, ?_, ?_⟩
  · intro i h
    rw [split_audio_get D L hL i h]
    exact ⟨rfl, rfl, rfl, rfl⟩
  · intro i h1 h2
    rw [split_audio_get D L hL i h1, split_audio_get D L hL (i + 1) h2]
    show (i + 1) * L = i * L + L
    ring

/-- C2 amended, witness at the concrete input `D = 75000`, `L = 30000`. -/
theorem claim_C2_amended_witness :
    0 < 30000 ∧
    ((split_audio 75000 30000).length = (75000 + 30000 - 1) / 30000 ∧
    (∀ i, (h : i < (split_audio 75000 30000).length) →
      ((split_audio 75000 30000).get ⟨i, h⟩).startMs = i * 30000 ∧
      ((split_audio 75000 30000).get ⟨i, h⟩).endMs = i * 30000 + 30000 ∧
      ((split_audio 75000 30000).get ⟨i, h⟩).sliceStartMs = i * 30000 ∧
      ((split_audio 75000 30000).get ⟨i, h⟩).sliceEndMs = min (i * 30000 + 30000) 75000) ∧
    (∀ i, (h1 : i < (split_audio 75000 30000).length) →
        (h2 : i + 1 < (split_audio 75000 30000).length) →
      ((split_audio 75000 30000).get ⟨i + 1, h2⟩).startMs =
        ((split_audio 75000 30000).get ⟨i, h1⟩).endMs)) :=
  ⟨by decide, claim_C2_amended 75000 30000 (by decide)⟩

/-- C10 (confirmed): for every buffer duration and chunk length `L > 0`, every
tuple returned by the chunker records `start = i * L` and `end = (i+1) * L`
exactly, so `end - start = L` for every segment including the last; consequently
whenever the duration is not a multiple of `L`, the recorded end time of the
trailing segment exceeds the buffer's actual duration. -/
theorem claim_C10 (D L : Nat) (hL : 0 < L) :
    (∀ i, (h : i < (split_audio D L).length) →
      ((split_audio D L).get ⟨i, h⟩).startMs = i * L ∧
      ((split_audio D L).get ⟨i, h⟩).endMs = i * L + L ∧
      ((split_audio D L).get ⟨i, h⟩).endMs - ((split_audio D L).get ⟨i, h⟩).startMs = L) ∧
    (D % L ≠ 0 → ∀ hne : split_audio D L ≠ [],
      ((split_audio D L).getLast hne).endMs > D) := by
  constructor
  · intro i h
    rw [split_audio_get D L hL i h]
    refine ⟨rfl, rfl, ?_⟩
    show (i * L + L) - (i * L) = L
    omega
  · intro hmod hne
    have hpos : 0 < (split_audio D L).length := List.length_pos.mpr hne
    have hg : (split_audio D L).getLast hne =
        (split_audio D L).get ⟨(split_audio D L).length - 1, by omega⟩ := by
      rw [List.getLast_eq_getElem]
      rfl
    rw [hg, split_audio_get D L hL _ (by omega)]
    show ((split_audio D L).length - 1) * L + L > D
    rw [split_audio_length D L hL]
    have hr1 : 1 ≤ D % L := Nat.one_le_iff_ne_zero.mpr hmod
    have hrL : D % L < L := Nat.mod_lt _ hL
    have hD : L * (D / L) + D % L = D := Nat.div_add_mod D L
    have comm : L * (D / L) = D / L * L := by ring
    have expand : (D / L + 1) * L = D / L * L + L := by ring
    have hsplit : D + L - 1 = (D % L - 1) + (D / L + 1) * L := by omega
    have hn : (D + L - 1) / L = D / L + 1 := by
      rw [hsplit, Nat.add_mul_div_right _ _ hL, Nat.div_eq_of_lt (by omega)]
      omega
    rw [hn]
    have collapse : (D / L + 1 - 1) * L = D / L * L := by
      congr 1
    omega

/-- C10 witness at the concrete input `D = 75000`, `L = 30000` (whose duration is
not a multiple of the chunk length). -/
theorem claim_C10_witness :
    0 < 30000 ∧
    ((∀ i, (h : i < (split_audio 75000 30000).length) →
      ((split_audio 75000 30000).get ⟨i, h⟩).startMs = i * 30000 ∧
      ((split_audio 75000 30000).get ⟨i, h⟩).endMs = i * 30000 + 30000 ∧
      ((split_audio 75000 30000).get ⟨i, h⟩).endMs -
        ((split_audio 75000 30000).get ⟨i, h⟩).startMs = 30000) ∧
    (75000 % 30000 ≠ 0 → ∀ hne : split_audio 75000 30000 ≠ [],
      ((split_audio 75000 30000).getLast hne).endMs > 75000)) :=
  ⟨by decide, claim_C10 75000 30000 (by decide)⟩

/-- C1 code evaluation at the failing input: two successfully transcribed chunks
of a 60-second buffer whose workers complete in reversed order.  The transcript
list is appended in completion order and written unsorted, so the file starts
with the 30.00s-60.00s line — it is not ordered by segment index ascending. -/
theorem claim_C1_code_eval :
    save_transcript_with_timestamps
        (audio_chunks_to_text abBehav ((split_audio 60000 30000).enum.reverse)) =
      "30.00s - 60.00s: b\n0.00s - 30.00s: a\n" ∧
    "30.00s - 60.00s: b\n0.00s - 30.00s: a\n" ≠
      "0.00s - 30.00s: a\n30.00s - 60.00s: b\n" := by
  constructor
  · rfl
  · decide

/-- C3 counterexample: on the spec's end-to-end scenario (75-second buffer,
30-second chunks, stub recognizer), the code's output file ends with a
`60.00s - 90.00s` line — the trailing segment's recorded end time is 90 s, not
75 s — so the file differs from the three lines the claim prescribes. -/
theorem C3_counterexample :
    save_transcript_with_timestamps
        (audio_chunks_to_text stubRecognizer75 ((split_audio 75000 30000).enum)) =
      "0.00s - 30.00s: hello\n30.00s - 60.00s: [error]\n60.00s - 90.00s: [unintelligible]\n" ∧
    "0.00s - 30.00s: hello\n30.00s - 60.00s: [error]\n60.00s - 90.00s: [unintelligible]\n" ≠
      "0.00s - 30.00s: hello\n30.00s - 60.00s: [error]\n60.00s - 75.00s: [unintelligible]\n" := by
  constructor
  · rfl
  · decide

/-- C3 amended: the 75-second buffer with 30-second chunks yields exactly three
segments whose recorded intervals are `[0, 30000)`, `[30000, 60000)` and
`[60000, 90000)` milliseconds (the trailing recorded end is 90 s, not 75 s; the
trailing audio slice itself is clipped to `[60000, 75000)`), and with the stub
recognizer and completions collected in index order the output file is exactly
the three newline-terminated lines ending in `60.00s - 90.00s: [unintelligible]`. -/
theorem claim_C3_amended :
    (split_audio 75000 30000).map
        (fun s => (s.startMs, s.endMs, s.sliceStartMs, s.sliceEndMs)) =
      [(0, 30000, 0, 30000), (30000, 60000, 30000, 60000), (60000, 90000, 60000, 75000)] ∧
    save_transcript_with_timestamps
        (audio_chunks_to_text stubRecognizer75 ((split_audio 75000 30000).enum)) =
      "0.00s - 30.00s: hello\n30.00s - 60.00s: [error]\n60.00s - 90.00s: [unintelligible]\n" := by
  constructor
  · decide
  · rfl

/-- C4 counterexample: an unexpected fault while reading back the serialized
chunk (raised by the `with sr.AudioFile(...)`/`record` lines, which run before
the `try/finally`) escapes the invocation with the temporary chunk file still on
disk — the second component `true` — contradicting removal on every exit path. -/
theorem C4_counterexample :
    transcribe_chunk 0 30000 (WorkerEvent.recordFault ("boom")) =
      (Except.error ("boom"), true) := by
  rfl

/-- C4 amended: the temporary chunk file is removed on every exit path that
reaches the `try` block — success, recognized-as-unintelligible, service error,
and any unexpected fault raised by the recognition call itself — but a fault
during serialization or while reading the serialized chunk back is raised before
the `try/finally` and leaves the file behind. -/
theorem claim_C4_amended (s e : Nat) (t m : String) :
    (transcribe_chunk s e (WorkerEvent.recognized t)).2 = false ∧
    (transcribe_chunk s e WorkerEvent.unknownValue).2 = false ∧
    (transcribe_chunk s e WorkerEvent.requestError).2 = false ∧
    (transcribe_chunk s e (WorkerEvent.recognizeFault m)).2 = false ∧
    (transcribe_chunk s e (WorkerEvent.exportFault m)).2 = true ∧
    (transcribe_chunk s e (WorkerEvent.recordFault m)).2 = true :=
  ⟨rfl, rfl, rfl, rfl, rfl, rfl⟩

/-- C5 counterexample: a worker whose recognition call raises an unexpected
exception yields the coordinator line `Chunk 0 generated an exception: boom`,
and no payload string makes that line fit the claimed
`{start:.2f}s - {end:.2f}s: <payload>` format of segment `[0, 30000)` — the
task-fault line carries no timestamps at all. -/
theorem C5_counterexample :
    audio_chunks_to_text (fun _ => WorkerEvent.recognizeFault ("boom"))
        [(0, { sliceStartMs := 0, sliceEndMs := 30000, startMs := 0, endMs := 30000 })] =
      ["Chunk 0 generated an exception: boom"] ∧
    ¬ ∃ p : String, "Chunk 0 generated an exception: boom" = lineFmt 0 30000 p := by
  refine ⟨rfl, ?_⟩
  rintro ⟨p, hp⟩
  have h : ("Chunk 0 generated an exception: boom").data =
      ("0.00s - 30.00s: ").data ++ p.data := congrArg String.data hp
  have h2 : (some 'C' : Option Char) = some '0' := congrArg List.head? h
  exact absurd h2 (by decide)

/-- C5 amended: three of the four per-segment outcomes — recognized text,
unintelligible, service error — are formatted identically as
`{start:.2f}s - {end:.2f}s: <payload>` with payload the text, `[unintelligible]`
or `[error]`; an unexpected task fault instead yields the coordinator's line
`Chunk {index} generated an exception: <description>`, which carries no
timestamps. -/
theorem claim_C5_amended (s e i : Nat) (t m : String) (seg : Segment) :
    (transcribe_chunk s e (WorkerEvent.recognized t)).1 =
      Except.ok (fmt2 s ++ "s - " ++ fmt2 e ++ "s: " ++ t) ∧
    (transcribe_chunk s e WorkerEvent.unknownValue).1 =
      Except.ok (fmt2 s ++ "s - " ++ fmt2 e ++ "s: " ++ "[unintelligible]") ∧
    (transcribe_chunk s e WorkerEvent.requestError).1 =
      Except.ok (fmt2 s ++ "s - " ++ fmt2 e ++ "s: " ++ "[error]") ∧
    audio_chunks_to_text (fun _ => WorkerEvent.recognizeFault m) [(i, seg)] =
      ["Chunk " ++ toString i ++ " generated an exception: " ++ m] :=
  ⟨rfl, rfl, rfl, rfl⟩

/-- C6 (confirmed): for every list of N segments and every completion order (a
permutation of the enumerated segments, as produced by `as_completed` over the
futures dictionary), the coordinator collects exactly N transcript lines — one
per distinct segment index `0..N-1`, no gaps, no duplicates — and only returns
the full set. -/
theorem claim_C6 (chunks : List Segment) (behav : Nat → WorkerEvent)
    (completed : List (Nat × Segment)) (h : completed.Perm chunks.enum) :
    (audio_chunks_to_text behav completed).length = chunks.length ∧
    ∀ i : Nat, (completed.map Prod.fst).count i = if i < chunks.length then 1 else 0 := by
  constructor
  · rw [audio_chunks_to_text, List.length_map, h.length_eq, List.enum_length]
  · intro i
    have hperm : (completed.map Prod.fst).Perm (chunks.enum.map Prod.fst) := h.map Prod.fst
    rw [List.Perm.count_eq hperm]
    have henum : chunks.enum.map Prod.fst = List.range chunks.length := by simp
    rw [henum]
    by_cases hi : i < chunks.length
    · rw [if_pos hi]
      exact List.count_eq_one_of_mem (List.nodup_range _) (by simpa using hi)
    · rw [if_neg hi]
      exact List.count_eq_zero_of_not_mem (by simpa using hi)

/-- C6 witness: the two-segment job with workers completing in reversed order. -/
theorem claim_C6_witness :
    ((split_audio 60000 30000).enum.reverse).Perm ((split_audio 60000 30000).enum) ∧
    ((audio_chunks_to_text abBehav ((split_audio 60000 30000).enum.reverse)).length =
        (split_audio 60000 30000).length ∧
      ∀ i : Nat, (((split_audio 60000 30000).enum.reverse).map Prod.fst).count i =
        if i < (split_audio 60000 30000).length then 1 else 0) :=
  ⟨by decide,
   claim_C6 (split_audio 60000 30000) abBehav
     ((split_audio 60000 30000).enum.reverse) (by decide)⟩

/-- C7 (confirmed): if exactly one segment's worker fails — with a service error
or with an unexpected exception escaping the worker — then in every completion
order the coordinator still produces one line per segment, every other segment's
line carries its correct transcription, and the failing segment's line alone
carries its error marker (the `[error]` line for a service error, the
`Chunk {index} generated an exception: ...` line for an escaped exception). -/
theorem claim_C7 (chunks : List Segment) (completed : List (Nat × Segment))
    (t : Nat → String) (j : Nat) (bad : WorkerEvent) (h : completed.Perm chunks.enum) :
    (audio_chunks_to_text (oneFaultBehav t j bad) completed).length = chunks.length ∧
    (∀ p ∈ completed, p.1 ≠ j →
      processCompleted (oneFaultBehav t j bad) p = lineFmt p.2.startMs p.2.endMs (t p.1)) ∧
    (∀ p ∈ completed, p.1 = j → bad = WorkerEvent.requestError →
      processCompleted (oneFaultBehav t j bad) p =
        lineFmt p.2.startMs p.2.endMs ("[error]")) ∧
    (∀ p ∈ completed, p.1 = j → ∀ msg, bad = WorkerEvent.recognizeFault msg →
      processCompleted (oneFaultBehav t j bad) p =
        "Chunk " ++ toString j ++ " generated an exception: " ++ msg) := by
  refine ⟨?_, ?_, ?_, ?_⟩
  · rw [audio_chunks_to_text, List.length_map, h.length_eq, List.enum_length]
  · intro p hp hne
    simp [processCompleted, oneFaultBehav, transcribe_chunk, hne]
  · intro p hp hpj hbad
    subst hbad
    subst hpj
    simp [processCompleted, oneFaultBehav, transcribe_chunk]
  · intro p hp hpj msg hbad
    subst hbad
    subst hpj
    simp [processCompleted, oneFaultBehav, transcribe_chunk]

/-- C7 witness: two segments, reversed completion order, segment 0's worker
raising an unexpected exception while segment 1 transcribes correctly. -/
theorem claim_C7_witness :
    ((split_audio 60000 30000).enum.reverse).Perm ((split_audio 60000 30000).enum) ∧
    ((audio_chunks_to_text
          (oneFaultBehav (fun _ => "ok") 0 (WorkerEvent.recognizeFault ("boom")))
          ((split_audio 60000 30000).enum.reverse)).length =
        (split_audio 60000 30000).length ∧
      (∀ p ∈ (split_audio 60000 30000).enum.reverse, p.1 ≠ 0 →
        processCompleted (oneFaultBehav (fun _ => "ok") 0 (WorkerEvent.recognizeFault ("boom"))) p =
          lineFmt p.2.startMs p.2.endMs ((fun _ => "ok") p.1)) ∧
      (∀ p ∈ (split_audio 60000 30000).enum.reverse, p.1 = 0 →
        WorkerEvent.recognizeFault ("boom") = WorkerEvent.requestError →
        processCompleted (oneFaultBehav (fun _ => "ok") 0 (WorkerEvent.recognizeFault ("boom"))) p =
          lineFmt p.2.startMs p.2.endMs ("[error]")) ∧
      (∀ p ∈ (split_audio 60000 30000).enum.reverse, p.1 = 0 →
        ∀ msg, WorkerEvent.recognizeFault ("boom") = WorkerEvent.recognizeFault msg →
        processCompleted (oneFaultBehav (fun _ => "ok") 0 (WorkerEvent.recognizeFault ("boom"))) p =
          "Chunk " ++ toString 0 ++ " generated an exception: " ++ msg)) :=
  ⟨by decide,
   claim_C7 (split_audio 60000 30000) ((split_audio 60000 30000).enum.reverse)
     (fun _ => "ok") 0 (WorkerEvent.recognizeFault ("boom")) (by decide)⟩

/-- C8 (confirmed): a zero-duration buffer yields zero segments, and the pipeline
then writes an empty output file — every completion order of the empty future set
is empty, and joining the empty transcript gives the empty file content. -/
theorem claim_C8 (L : Nat) (_hL : 0 < L) (behav : Nat → WorkerEvent)
    (completed : List (Nat × Segment)) (h : completed.Perm (split_audio 0 L).enum) :
    split_audio 0 L = [] ∧
    save_transcript_with_timestamps (audio_chunks_to_text behav completed) = "" := by
  have hnil : split_audio 0 L = [] := rfl
  refine ⟨hnil, ?_⟩
  have hc : completed = [] := by
    have h2 := h
    rw [hnil] at h2
    simpa using h2
  subst hc
  rfl

/-- C8 witness at chunk length 30000 ms with the empty completion order. -/
theorem claim_C8_witness :
    0 < 30000 ∧
    (([] : List (Nat × Segment)).Perm ((split_audio 0 30000).enum)) ∧
    (split_audio 0 30000 = [] ∧
      save_transcript_with_timestamps (audio_chunks_to_text abBehav []) = "") :=
  ⟨by decide, by decide, claim_C8 30000 (by decide) abBehav [] (by decide)⟩
